import Mathlib

/-!
Verification of the post-pilot content-generation backend.

This file shallowly embeds the core of the repository — the task
orchestrator bodies (`backend/core/tasks.py`), the enqueueing views
(`backend/core/views.py`), the stuck-state reaper
(`core/management/commands/cleanup_stuck_tasks.py` and the passive heal
in `check_theme_status`), and the response sanitizer / prompt agents
(`backend/core/services.py`) — and proves the spec's claims about them.

Conventions of the embedding:
* Django model instances become Lean structures; the record store is a
  list of records; a `save()` is explicit state passing.  The backend's
  `models.py` is not in the source tree, so the fields are taken from
  their uses in `tasks.py`/`views.py` and the default values of
  `is_processing`/`processing_status` are modelled from the spec's
  status enum (`idle`, not processing).
* `timezone.now()` becomes an explicit `now : Int` parameter
  (seconds); `timedelta(minutes=m)` is `m * 60`.  `strftime` rendering
  of a timestamp is abstracted as `toString now`.
* An AI provider call becomes an explicit argument carrying the value
  the call would have produced (or the exception it would have raised);
  python exceptions become `Except`/sum types.
* Python dicts returned by the agents become structures with `Option`
  fields (`none` = key absent); python truthiness of `d.get(k)` is
  `pyTruthy`.
-/

namespace PostPilot

/-- One suggested topic, as produced by the topic agent
(`services.py`, topic JSON shape: title/hook/post_type/summary/cta). -/
structure Topic where
  title : String
  hook : String
  post_type : String
  summary : String
  cta : String
deriving Repr, DecidableEq

/-- The JSON payload stored in `Theme.suggested_topics`: a dict with a
`topics` list and, after a merge, `total_count`/`last_generated`
(`tasks.py` lines 44-49). -/
structure SuggestedTopics where
  topics : List Topic
  total_count : Option Nat
  last_generated : Option Int
deriving Repr, DecidableEq

/-- A Theme record (fields as used by `tasks.py`/`views.py`; defaults
modelled from the spec's record store: a fresh record is idle). -/
structure Theme where
  id : Nat
  title : String
  is_active : Bool
  suggested_topics : Option SuggestedTopics
  topics_generated_at : Option Int
  is_processing : Bool
  processing_status : String
  updated_at : Int
deriving Repr, DecidableEq

/-- A Post record (fields as used by `tasks.py`/`views.py`). -/
structure Post where
  id : Nat
  theme_id : Nat
  post_type : String
  title : String
  content : String
  promotional_post : String
  topic : String
  seo_title : String
  seo_description : String
  status : String
  generated_at : Option Int
  generation_prompt : String
  ai_model_used : String
  cover_image_prompt : String
  is_processing : Bool
  processing_status : String
  updated_at : Int
deriving Repr, DecidableEq

/-- The `{status, message, ...}` envelope every task body returns. -/
structure TaskResult where
  status : String
  message : String
  post_id : Option Nat
  post_title : Option String
  topics_count : Option Nat
  new_topics_count : Option Nat
  improvement_summary : Option String
  action_type : Option String
  style_notes : Option String
deriving Repr, DecidableEq

/-- A result envelope with only status and message set. -/
def mkResult (status message : String) : TaskResult :=
  { status := status, message := message, post_id := none, post_title := none,
    topics_count := none, new_topics_count := none, improvement_summary := none,
    action_type := none, style_notes := none }

/-- Python truthiness of `d.get(key)` for a string-valued key:
false when the key is absent or its value is the empty string. -/
def pyTruthy : Option String → Bool
  | some s => s ≠ ""
  | none => false

/-- The record-level invariant stated by the spec for Theme and Post:
`is_processing == true` implies `processing_status == "processing"`. -/
def procInvariant (is_processing : Bool) (processing_status : String) : Prop :=
  is_processing = true → processing_status = "processing"

/-! ## Topic generation task (`generate_topics_task`, tasks.py 12-110)

The agent call `ai_service.generate_topics(...)` is passed in as the
`topics_data` dict it returned (the non-raising path; the exception
path is handled by the retry/cleanup code, which only ever writes
`failed`/not-processing). -/

/-- The `{"topics": [...]}` dict returned by the topic agent. -/
structure TopicsData where
  topics : List Topic
deriving Repr, DecidableEq

/-- The task body's reading of the theme's existing topics:
`theme.suggested_topics and theme.suggested_topics.get("topics")`
(both must be truthy, otherwise the existing list is `[]`). -/
def existingTopicsOf (theme : Theme) : List Topic :=
  match theme.suggested_topics with
  | some st => if st.topics ≠ [] then st.topics else []
  | none => []

/-- Body of `generate_topics_task` (tasks.py 12-79), given the loaded
theme and the dict the topic agent returned.  Returns the saved theme
and the task result envelope. -/
def generate_topics_task (theme : Theme) (topics_data : TopicsData) (now : Int) :
    Theme × TaskResult :=
  let theme1 : Theme :=
    { theme with is_processing := true, processing_status := "processing", updated_at := now }
  let existing_topics := existingTopicsOf theme1
  if topics_data.topics ≠ [] then
    let combined_data : SuggestedTopics :=
      if existing_topics ≠ [] then
        { topics := existing_topics ++ topics_data.topics,
          total_count := some (existing_topics ++ topics_data.topics).length,
          last_generated := some now }
      else
        { topics := topics_data.topics, total_count := none, last_generated := none }
    let new_topics_count := topics_data.topics.length
    let theme2 : Theme :=
      { theme1 with suggested_topics := some combined_data,
                    topics_generated_at := some now,
                    processing_status := "completed",
                    is_processing := false,
                    updated_at := now }
    (theme2,
      { mkResult "success"
          (toString new_topics_count ++ " new topics added! Total: " ++
            toString combined_data.topics.length ++ " topics.") with
        topics_count := some combined_data.topics.length,
        new_topics_count := some new_topics_count })
  else
    let theme2 : Theme :=
      { theme1 with processing_status := "failed", is_processing := false, updated_at := now }
    (theme2, mkResult "error" "Could not generate topics. Please try again.")

/-! ## Post generation task (`generate_post_content_task`, tasks.py 113-182) -/

/-- The content dict returned by the content agent. -/
structure ContentData where
  title : Option String
  content : Option String
  promotional_post : Option String
  cover_image_prompt : Option String
  seo_title : Option String
  seo_description : Option String
deriving Repr, DecidableEq

/-- `Post.get_post_type_display()` for the two registered choices
(Django falls back to the raw value for anything else). -/
def postTypeDisplay (post_type : String) : String :=
  if post_type = "simple" then "Post Simples"
  else if post_type = "article" then "Artigo"
  else post_type

/-- The duplicate pre-check
`Post.objects.filter(theme=theme, post_type=post_type, topic=topic).first()`. -/
def existingPostFor (db : List Post) (theme_id : Nat) (post_type topic : String) :
    Option Post :=
  db.find? (fun p => p.theme_id == theme_id && p.post_type == post_type && p.topic == topic)

/-- Body of `generate_post_content_task` (tasks.py 113-169), given the
post table, the loaded theme and the content agent as a function (the
provider the factory would have selected).  Returns the new table, the
result envelope, and how many times the agent was invoked. -/
def generate_post_content_task (db : List Post) (theme : Theme) (topic post_type : String)
    (agent : String → String → String → ContentData) (next_id : Nat) (now : Int) :
    List Post × TaskResult × Nat :=
  match existingPostFor db theme.id post_type topic with
  | some existing_post =>
      (db,
        { mkResult "warning"
            ("Já existe um " ++ (postTypeDisplay existing_post.post_type).toLower ++
              " para este tópico.") with
          post_id := some existing_post.id },
        0)
  | none =>
      let content_data := agent topic post_type theme.title
      let post : Post :=
        { id := next_id,
          theme_id := theme.id,
          post_type := post_type,
          title := content_data.title.getD ("Post sobre " ++ topic),
          content := content_data.content.getD "",
          promotional_post :=
            if post_type = "article" && pyTruthy content_data.promotional_post then
              content_data.promotional_post.getD ""
            else "",
          topic := topic,
          seo_title := content_data.seo_title.getD (topic.take 60),
          seo_description := content_data.seo_description.getD "",
          status := "generated",
          generated_at := some now,
          generation_prompt := "Tópico: " ++ topic ++ ", Tipo: " ++ post_type,
          ai_model_used := if post_type = "article" then "gpt-4o" else "gpt-4o-mini",
          cover_image_prompt := "",
          is_processing := false,
          processing_status := "idle",
          updated_at := now }
      (db ++ [post],
        { mkResult "success" (postTypeDisplay post_type ++ " gerado com sucesso!") with
          post_id := some next_id,
          post_title := some post.title },
        1)

/-! ## Improvement task (`improve_post_content_task`, tasks.py 185-280)

Note: unlike its three sibling task bodies, this body never writes
`is_processing` — it only writes `processing_status`. -/

/-- The `{improved_content, improvement_summary}` dict returned by the
improvement agent (a key may be absent). -/
structure ImprovementData where
  improved_content : Option String
  improvement_summary : Option String
deriving Repr, DecidableEq

/-- Body of `improve_post_content_task` (tasks.py 185-259), given the
loaded post and the dict the improvement agent returned. -/
def improve_post_content_task (post : Post) (improvement_data : ImprovementData)
    (now : Int) : Post × TaskResult :=
  let post1 : Post := { post with processing_status := "processing", updated_at := now }
  if pyTruthy improvement_data.improved_content then
    let improved := improvement_data.improved_content.getD ""
    if improved ≠ post1.content then
      let post2 : Post :=
        { post1 with content := improved,
                     processing_status := "completed",
                     generation_prompt :=
                       if post1.generation_prompt ≠ "" then
                         post1.generation_prompt ++ " | Melhorado em: " ++ toString now
                       else "Melhorado em: " ++ toString now,
                     updated_at := now }
      let improvement_summary :=
        improvement_data.improvement_summary.getD "Conteúdo melhorado com sucesso!"
      (post2,
        { mkResult "success" ("Post melhorado! " ++ improvement_summary) with
          post_id := some post.id,
          improvement_summary := some improvement_summary })
    else
      let post2 : Post := { post1 with processing_status := "failed", updated_at := now }
      let error_message :=
        improvement_data.improvement_summary.getD "O conteúdo não pôde ser melhorado."
      (post2, { mkResult "error" error_message with post_id := some post.id })
  else
    let post2 : Post := { post1 with processing_status := "failed", updated_at := now }
    (post2, mkResult "error" "Não foi possível melhorar o post. Tente novamente.")

/-! ## Image prompt task (`regenerate_image_prompt_task`, tasks.py 283-356) -/

/-- The dict returned by the image prompt agent. -/
structure ImagePromptData where
  cover_image_prompt : Option String
  style_notes : Option String
  visual_elements : Option String
deriving Repr, DecidableEq

/-- Body of `regenerate_image_prompt_task` (tasks.py 283-356). -/
def regenerate_image_prompt_task (post : Post) (image_data : ImagePromptData)
    (now : Int) : Post × TaskResult :=
  if post.post_type ≠ "article" then
    (post, mkResult "error" "Apenas artigos podem ter prompt de imagem de capa.")
  else
    let post1 : Post :=
      { post with is_processing := true, processing_status := "processing", updated_at := now }
    let is_first_generation := post1.cover_image_prompt = ""
    let action_type := if is_first_generation then "gerado" else "regenerado"
    if pyTruthy image_data.cover_image_prompt then
      let generation_info :=
        if is_first_generation then "Imagem gerada em: " ++ toString now
        else "Imagem regenerada em: " ++ toString now
      let post2 : Post :=
        { post1 with cover_image_prompt := image_data.cover_image_prompt.getD "",
                     is_processing := false,
                     processing_status := "completed",
                     generation_prompt :=
                       if post1.generation_prompt ≠ "" then
                         post1.generation_prompt ++ " | " ++ generation_info
                       else generation_info,
                     updated_at := now }
      let style_notes :=
        image_data.style_notes.getD ("Prompt da imagem " ++ action_type ++ " com sucesso!")
      (post2,
        { mkResult "success" ("Prompt da imagem " ++ action_type ++ "! " ++ style_notes) with
          post_id := some post.id,
          action_type := some action_type,
          style_notes := some style_notes })
    else
      let post2 : Post :=
        { post1 with is_processing := false, processing_status := "failed", updated_at := now }
      (post2, mkResult "error"
        ("Não foi possível " ++ action_type ++ " o prompt da imagem. Tente novamente."))

/-! ## Enqueueing views (`views.py`)

Each view returns the saved record and whether a background task was
handed to the queue; the record state in the pair is exactly what a
status check immediately after the enqueue would read. -/

/-- `generate_topics` view (views.py 74-100): marks the theme as
processing, saves, then enqueues. -/
def generate_topics_view (theme : Theme) (now : Int) : Theme × Bool :=
  ({ theme with is_processing := true, processing_status := "processing", updated_at := now },
   true)

/-- `generate_post_from_topic` view (views.py 103-137): validates the
topic and enqueues; it performs no write to the theme record. -/
def generate_post_from_topic_view (theme : Theme) (topic : Option String)
    (_post_type : String) : Theme × Bool :=
  if pyTruthy topic then (theme, true) else (theme, false)

/-- `post_improve` view (views.py 207-224): marks the post as
processing, saves, then enqueues. -/
def post_improve_view (post : Post) (now : Int) : Post × Bool :=
  ({ post with is_processing := true, processing_status := "processing", updated_at := now },
   true)

/-- `regenerate_image_prompt` view (views.py 227-252): rejects
non-articles synchronously, otherwise marks as processing and enqueues. -/
def regenerate_image_prompt_view (post : Post) (now : Int) : Post × Bool :=
  if post.post_type ≠ "article" then (post, false)
  else
    ({ post with is_processing := true, processing_status := "processing", updated_at := now },
     true)

/-! ## Stuck-state reaper

The batch sweep `cleanup_stuck_tasks` (management command) and the
passive single-record heal inside `check_theme_status` (views.py
271-336). -/

/-- The `--older-than` argparse default of the cleanup command
(cleanup_stuck_tasks.py line 14): 30 minutes. -/
def cleanup_default_older_than : Int := 30

/-- The stuck filter of the sweep:
`is_processing=True, updated_at__lt=time_limit`. -/
def isStuckTheme (time_limit : Int) (t : Theme) : Bool :=
  t.is_processing && decide (t.updated_at < time_limit)

/-- The stuck filter of the sweep, for posts. -/
def isStuckPost (time_limit : Int) (p : Post) : Bool :=
  p.is_processing && decide (p.updated_at < time_limit)

/-- `Command.handle` of `cleanup_stuck_tasks` (lines 23-87): computes
`time_limit = now - older_than minutes`, and (unless `dry_run`) applies
`update(is_processing=False, processing_status='timeout')` to the stuck
themes and posts (a queryset `.update` does not touch `updated_at`). -/
def cleanup_stuck_tasks (themes : List Theme) (posts : List Post)
    (older_than_minutes : Int) (dry_run : Bool) (now : Int) :
    List Theme × List Post :=
  let time_limit := now - older_than_minutes * 60
  if dry_run then (themes, posts)
  else
    (themes.map (fun t =>
        if isStuckTheme time_limit t then
          { t with is_processing := false, processing_status := "timeout" }
        else t),
     posts.map (fun p =>
        if isStuckPost time_limit p then
          { p with is_processing := false, processing_status := "timeout" }
        else p))

/-- The cleanup command run with its defaults (`--older-than` omitted,
no `--dry-run`). -/
def cleanup_stuck_tasks_default (themes : List Theme) (posts : List Post) (now : Int) :
    List Theme × List Post :=
  cleanup_stuck_tasks themes posts cleanup_default_older_than false now

/-- The passive self-heal of `check_theme_status` (views.py 289-294):
a queried theme stuck for more than 5 minutes is flipped to timeout
(`save()` refreshes the `auto_now` field `updated_at`). -/
def check_theme_status_heal (theme : Theme) (now : Int) : Theme :=
  if theme.is_processing && decide (theme.updated_at < now - 5 * 60) then
    { theme with is_processing := false, processing_status := "timeout", updated_at := now }
  else theme

/-- The passive self-heal of `check_theme_status` for a queried post
(views.py 316-321). -/
def check_post_status_heal (post : Post) (now : Int) : Post :=
  if post.is_processing && decide (post.updated_at < now - 5 * 60) then
    { post with is_processing := false, processing_status := "timeout", updated_at := now }
  else post

/-! ## JSON values, `json.loads`, and `json.dumps`

The response sanitizer and the prompt agents branch on whether
`json.loads` succeeds, so the embedding carries an executable model of
Python's JSON decoder: values as an inductive type (numbers keep their
lexeme — no claim depends on numeric values), a recursive-descent
parser in strict mode (raw control characters below 0x20 are rejected
inside strings, as CPython's `json` does; `NaN`/`Infinity`/`-Infinity`
are accepted), and the escaping `json.dumps(…, ensure_ascii=False)`
applies to strings.  Structural recursion over the nesting is paid for
with a fuel argument; `loads` supplies `length + 1` fuel, which covers
every input because each parser step consumes at least one character
per two fuel units.  (`\uXXXX` escapes are decoded as single code
points; CPython's pairing of surrogate escapes is not modelled — no
input in this development contains them.) -/

/-- A decoded JSON value. -/
inductive Json where
  | null
  | bool (b : Bool)
  | num (lexeme : String)
  | str (s : String)
  | arr (elems : List Json)
  | obj (members : List (String × Json))
deriving Repr

/-- The decoder's whitespace: space, tab, newline, carriage return. -/
def jsonWs (c : Char) : Bool :=
  c = ' ' || c = '\t' || c = '\n' || c = '\r'

/-- Skip decoder whitespace. -/
def skipJsonWs : List Char → List Char
  | [] => []
  | c :: cs => if jsonWs c then skipJsonWs cs else c :: cs

/-- Value of one hex digit. -/
def hexVal (c : Char) : Option Nat :=
  if '0' ≤ c ∧ c ≤ '9' then some (c.toNat - '0'.toNat)
  else if 'a' ≤ c ∧ c ≤ 'f' then some (c.toNat - 'a'.toNat + 10)
  else if 'A' ≤ c ∧ c ≤ 'F' then some (c.toNat - 'A'.toNat + 10)
  else none

/-- The character named by a single-letter JSON escape. -/
def escCharJson (c : Char) : Option Char :=
  if c = '"' then some '"'
  else if c = '\\' then some '\\'
  else if c = '/' then some '/'
  else if c = 'b' then some (Char.ofNat 8)
  else if c = 'f' then some (Char.ofNat 12)
  else if c = 'n' then some '\n'
  else if c = 'r' then some '\r'
  else if c = 't' then some '\t'
  else none

/-- Scan a JSON string body (the part after the opening quote) up to
and including the closing quote; strict mode: a raw character below
0x20 is an error. -/
def parseStringBody : List Char → Option (List Char × List Char)
  | [] => none
  | c :: cs =>
    if c = '"' then some ([], cs)
    else if c = '\\' then
      match cs with
      | [] => none
      | e :: cs2 =>
        if e = 'u' then
          match cs2 with
          | a :: b :: c3 :: d :: cs3 =>
            match hexVal a, hexVal b, hexVal c3, hexVal d with
            | some va, some vb, some vc, some vd =>
              match parseStringBody cs3 with
              | some (out, rest) =>
                  some (Char.ofNat (va * 4096 + vb * 256 + vc * 16 + vd) :: out, rest)
              | none => none
            | _, _, _, _ => none
          | _ => none
        else
          match escCharJson e with
          | some ec =>
            match parseStringBody cs2 with
            | some (out, rest) => some (ec :: out, rest)
            | none => none
          | none => none
    else if 0x20 ≤ c.toNat then
      match parseStringBody cs with
      | some (out, rest) => some (c :: out, rest)
      | none => none
    else none

/-- Exponent part of the number grammar (maximal munch: a bare `e`
with no digits is left unconsumed, as the decoder's regex does). -/
def numExpPart (acc : List Char) (cs : List Char) : List Char × List Char :=
  match cs with
  | e :: rest =>
    if e = 'e' ∨ e = 'E' then
      match rest with
      | s :: rest2 =>
        if s = '+' ∨ s = '-' then
          match rest2.span (fun c => c.isDigit) with
          | ([], _) => (acc, cs)
          | (ds, rest3) => (acc ++ e :: s :: ds, rest3)
        else
          match rest.span (fun c => c.isDigit) with
          | ([], _) => (acc, cs)
          | (ds, rest3) => (acc ++ e :: ds, rest3)
      | [] => (acc, cs)
    else (acc, cs)
  | [] => (acc, cs)

/-- Fraction-and-exponent part of the number grammar. -/
def numFracPart (acc : List Char) (cs : List Char) : List Char × List Char :=
  match cs with
  | '.' :: rest =>
    match rest.span (fun c => c.isDigit) with
    | ([], _) => numExpPart acc cs
    | (ds, rest2) => numExpPart (acc ++ '.' :: ds) rest2
  | _ => numExpPart acc cs

/-- A JSON number lexeme: `-? (0 | [1-9][0-9]*) (.[0-9]+)? ([eE][+-]?[0-9]+)?`. -/
def parseNumber (cs : List Char) : Option (List Char × List Char) :=
  let (sign, cs1) :=
    match cs with
    | '-' :: rest => (['-'], rest)
    | _ => (([] : List Char), cs)
  match cs1 with
  | c :: rest =>
    if c = '0' then some (numFracPart (sign ++ ['0']) rest)
    else if c.isDigit then
      match rest.span (fun d => d.isDigit) with
      | (ds, rest2) => some (numFracPart (sign ++ c :: ds) rest2)
    else none
  | [] => none

/-- The keyword and number alternatives of a JSON value (CPython also
accepts `NaN`, `Infinity` and `-Infinity`). -/
def parseAtom : List Char → Option (Json × List Char)
  | 't' :: 'r' :: 'u' :: 'e' :: rest => some (.bool true, rest)
  | 'f' :: 'a' :: 'l' :: 's' :: 'e' :: rest => some (.bool false, rest)
  | 'n' :: 'u' :: 'l' :: 'l' :: rest => some (.null, rest)
  | 'N' :: 'a' :: 'N' :: rest => some (.num "NaN", rest)
  | 'I' :: 'n' :: 'f' :: 'i' :: 'n' :: 'i' :: 't' :: 'y' :: rest =>
      some (.num "Infinity", rest)
  | '-' :: 'I' :: 'n' :: 'f' :: 'i' :: 'n' :: 'i' :: 't' :: 'y' :: rest =>
      some (.num "-Infinity", rest)
  | cs => (parseNumber cs).map (fun p => (.num (String.mk p.1), p.2))

mutual

/-- Parse one JSON value. -/
def parseValue : Nat → List Char → Option (Json × List Char)
  | 0, _ => none
  | fuel + 1, cs =>
    match skipJsonWs cs with
    | [] => none
    | c :: rest =>
      if c = '\x7b' then
        match skipJsonWs rest with
        | '\x7d' :: rest2 => some (.obj [], rest2)
        | _ =>
          match parseMembers fuel rest with
          | some (ms, rest2) => some (.obj ms, rest2)
          | none => none
      else if c = '[' then
        match skipJsonWs rest with
        | ']' :: rest2 => some (.arr [], rest2)
        | _ =>
          match parseElements fuel rest with
          | some (vs, rest2) => some (.arr vs, rest2)
          | none => none
      else if c = '"' then
        match parseStringBody rest with
        | some (s, rest2) => some (.str (String.mk s), rest2)
        | none => none
      else parseAtom (c :: rest)

/-- Parse the members of a non-empty JSON object, including the
closing brace. -/
def parseMembers : Nat → List Char → Option (List (String × Json) × List Char)
  | 0, _ => none
  | fuel + 1, cs =>
    match skipJsonWs cs with
    | '"' :: rest =>
      match parseStringBody rest with
      | some (key, rest2) =>
        match skipJsonWs rest2 with
        | ':' :: rest3 =>
          match parseValue fuel rest3 with
          | some (v, rest4) =>
            match skipJsonWs rest4 with
            | ',' :: rest5 =>
              match parseMembers fuel rest5 with
              | some (ms, rest6) => some ((String.mk key, v) :: ms, rest6)
              | none => none
            | '\x7d' :: rest5 => some ([(String.mk key, v)], rest5)
            | _ => none
          | none => none
        | _ => none
      | none => none
    | _ => none

/-- Parse the elements of a non-empty JSON array, including the
closing bracket. -/
def parseElements : Nat → List Char → Option (List Json × List Char)
  | 0, _ => none
  | fuel + 1, cs =>
    match parseValue fuel cs with
    | some (v, rest) =>
      match skipJsonWs rest with
      | ',' :: rest2 =>
        match parseElements fuel rest2 with
        | some (vs, rest3) => some (v :: vs, rest3)
        | none => none
      | ']' :: rest2 => some ([v], rest2)
      | _ => none
    | none => none

end

/-- `json.loads`: parse one document and reject trailing garbage;
`none` models a raised `JSONDecodeError`. -/
def loads (s : String) : Option Json :=
  match parseValue (s.data.length + 1) s.data with
  | some (v, rest) => if skipJsonWs rest = [] then some v else none
  | none => none

/-- Lowercase hex digit for a value below 16. -/
def hexDigitChar (n : Nat) : Char :=
  if n < 10 then Char.ofNat ('0'.toNat + n) else Char.ofNat ('a'.toNat + n - 10)

/-- The escaping `json.dumps(…, ensure_ascii=False)` applies to one
string character: backslash, quote and the named control characters
get two-character escapes, other characters below 0x20 get `\u00xx`,
everything else is emitted raw. -/
def pyEscapeChar (c : Char) : List Char :=
  if c = '\\' then ['\\', '\\']
  else if c = '"' then ['\\', '"']
  else if c = Char.ofNat 8 then ['\\', 'b']
  else if c = '\t' then ['\\', 't']
  else if c = '\n' then ['\\', 'n']
  else if c = Char.ofNat 12 then ['\\', 'f']
  else if c = '\r' then ['\\', 'r']
  else if c.toNat < 0x20 then
    ['\\', 'u', '0', '0', hexDigitChar (c.toNat / 16), hexDigitChar (c.toNat % 16)]
  else [c]

/-- Escape a whole string body. -/
def pyEscapeList (cs : List Char) : List Char := cs.flatMap pyEscapeChar

/-- Character-level form of
`json.dumps({"improved_content": c, "improvement_summary": s}, ensure_ascii=False)`
(default separators: `", "` and `": "`). -/
def jsonDumpsPairList (c s : List Char) : List Char :=
  "\x7b\"improved_content\": \"".data ++ pyEscapeList c ++
    "\", \"improvement_summary\": \"".data ++ pyEscapeList s ++ "\"\x7d".data

/-- `json.dumps` of the hand-assembled two-key object built by the
sanitizer's last-resort stage. -/
def json_dumps_two (c s : String) : String :=
  String.mk (jsonDumpsPairList c.data s.data)

/-! ## Response sanitizer (`clean_json_response`, services.py 14-146) -/

/-- Python's `str.isspace` character class (ASCII and Latin-1 part plus
the Unicode space separators; `str.strip()` and the regex `\s` both use
this set on the inputs this code sees). -/
def pyIsSpace (c : Char) : Bool :=
  c = ' ' || c = '\t' || c = '\n' || c = '\x0d' || c = '\x0b' || c = '\x0c' ||
  c = '\x1c' || c = '\x1d' || c = '\x1e' || c = '\x1f' ||
  c = '\x85' || c = '\xa0' || c = Char.ofNat 0x1680 ||
  (0x2000 ≤ c.toNat && c.toNat ≤ 0x200a) || c = Char.ofNat 0x2028 ||
  c = Char.ofNat 0x2029 || c = Char.ofNat 0x202f || c = Char.ofNat 0x205f ||
  c = Char.ofNat 0x3000

/-- `str.strip()`. -/
def pyStrip (cs : List Char) : List Char :=
  ((cs.dropWhile pyIsSpace).reverse.dropWhile pyIsSpace).reverse

/-- Stage 1 (services.py 21-25): drop a leading ````json` marker and a
trailing ```` ` ``` fence (the trailing check runs on the already
truncated text, as in the source). -/
def stripFences (cs : List Char) : List Char :=
  let cs1 := if "```json".data.isPrefixOf cs then cs.drop 7 else cs
  if "```".data.isSuffixOf cs1 then cs1.take (cs1.length - 3) else cs1

/-- The explicit `chars_to_remove` list (services.py 32-63). -/
def chars_to_remove : List Char :=
  ['\x00', '\x01', '\x02', '\x03', '\x04', '\x05', '\x06', '\x07', '\x08',
   '\x0b', '\x0c', '\x0e', '\x0f', '\x10', '\x11', '\x12', '\x13', '\x14',
   '\x15', '\x16', '\x17', '\x18', '\x19', '\x1a', '\x1b', '\x1c', '\x1d',
   '\x1e', '\x1f', '\x7f']

/-- Stage 2a (services.py 65-66): one `str.replace(char, "")` per listed
control character. -/
def removeCharsListed (cs : List Char) : List Char :=
  chars_to_remove.foldl (fun acc ch => acc.filter (fun c => c ≠ ch)) cs

/-- The character class of the regex sweep
`[\x00-\x08\x0B\x0C\x0E-\x1F\x7F]` (services.py 69). -/
def isCtlRegexChar (c : Char) : Bool :=
  c.toNat ≤ 0x08 || c.toNat = 0x0b || c.toNat = 0x0c ||
  (0x0e ≤ c.toNat && c.toNat ≤ 0x1f) || c.toNat = 0x7f

/-- Stage 2b: the regex sweep removing stragglers. -/
def removeCtlSweep (cs : List Char) : List Char :=
  cs.filter (fun c => !(isCtlRegexChar c))

/-- Drop the `[0-9;]*` body of a candidate ANSI escape sequence. -/
def dropAnsiBody : List Char → List Char
  | [] => []
  | c :: cs => if c.isDigit || c = ';' then dropAnsiBody cs else c :: cs

/-- Stage 3 worker: each step consumes at least one character, so the
fuel (length + 1 at the entry point) never runs out; the fuel-exhausted
clause is unreachable. -/
def removeAnsiFuel : Nat → List Char → List Char
  | 0, cs => cs
  | _ + 1, [] => []
  | fuel + 1, c :: cs =>
    if c = '\x1b' then
      match cs with
      | '[' :: rest =>
        match dropAnsiBody rest with
        | l :: rest3 =>
          if l.isAlpha then removeAnsiFuel fuel rest3 else c :: removeAnsiFuel fuel cs
        | [] => c :: removeAnsiFuel fuel cs
      | _ => c :: removeAnsiFuel fuel cs
    else c :: removeAnsiFuel fuel cs

/-- Stage 3 (services.py 72): remove ANSI escape sequences matching
`\x1b[[0-9;]*[a-zA-Z]` (a no-op in practice since 0x1b was already
removed, embedded for fidelity). -/
def removeAnsi (cs : List Char) : List Char := removeAnsiFuel (cs.length + 1) cs

/-- The recognized JSON escapes of the backslash-fixing regex
`\\(?!["\\/bfnrt])` (services.py 75). -/
def validEscapeNext (c : Char) : Bool :=
  c = '"' || c = '\\' || c = '/' || c = 'b' || c = 'f' || c = 'n' || c = 'r' || c = 't'

/-- Stage 4: drop every backslash not followed by a recognized escape
character (a lone final backslash is also dropped — the negative
lookahead succeeds at end of input). -/
def fixBackslashes : List Char → List Char
  | [] => []
  | '\\' :: cs =>
    match cs with
    | c2 :: _ => if validEscapeNext c2 then '\\' :: fixBackslashes cs else fixBackslashes cs
    | [] => []
  | c :: cs => c :: fixBackslashes cs

/-- The cleaned text the sanitizer first attempts to parse
(stages 1-4 in source order). -/
def standardClean (content : String) : String :=
  String.mk (fixBackslashes (removeAnsi (removeCtlSweep (removeCharsListed
    (pyStrip (stripFences content.data))))))

/-- Stage 5's character filter: printable ASCII plus
newline/tab/carriage-return/space (services.py 87-97). -/
def isSafeChar (c : Char) : Bool :=
  (0x20 ≤ c.toNat && c.toNat ≤ 0x7e) || c = '\n' || c = '\t' || c = '\x0d' || c = ' '

/-- The `reconstructed` string of stage 5. -/
def reconstructedOf (content : String) : String :=
  String.mk ((standardClean content).data.filter isSafeChar)

/-- `\s*` of the extraction regexes. -/
def skipPyWs (cs : List Char) : List Char := cs.dropWhile pyIsSpace

/-- The lookahead `(?=\s*,)` of the `improved_content` extraction
(services.py 113-117). -/
def lookaheadComma (cs : List Char) : Bool :=
  match skipPyWs cs with
  | ',' :: _ => true
  | _ => false

/-- The lookahead `(?=\s*,|\s*\x7d)` of the salvage regex in
`improve_post_content` (services.py 507-511). -/
def lookaheadCommaOrBrace (cs : List Char) : Bool :=
  match skipPyWs cs with
  | ',' :: _ => true
  | '\x7d' :: _ => true
  | _ => false

/-- The non-greedy group `(.*?)"` with DOTALL: take characters up to
the first closing quote whose lookahead succeeds (a quote with a
failing lookahead is consumed into the group, as backtracking does). -/
def scanGroup (la : List Char → Bool) : List Char → Option (List Char × List Char)
  | [] => none
  | c :: cs =>
    if c = '"' then
      if la cs then some ([], cs)
      else
        match scanGroup la cs with
        | some (g, r) => some (c :: g, r)
        | none => none
    else
      match scanGroup la cs with
      | some (g, r) => some (c :: g, r)
      | none => none

/-- Consume an exact literal. -/
def dropLit : List Char → List Char → Option (List Char)
  | [], cs => some cs
  | _ :: _, [] => none
  | k :: ks, c :: cs => if c = k then dropLit ks cs else none

/-- Try the whole field regex
`"<key>"\s*:\s*"(.*?)"<lookahead>` at the current position. -/
def matchFieldAt (key : List Char) (la : List Char → Bool) (cs : List Char) :
    Option (List Char) :=
  match dropLit key cs with
  | some cs1 =>
    match skipPyWs cs1 with
    | ':' :: cs3 =>
      match skipPyWs cs3 with
      | '"' :: cs5 =>
        match scanGroup la cs5 with
        | some (g, _) => some g
        | none => none
      | _ => none
    | _ => none
  | none => none

/-- `re.search`: leftmost position at which the field regex matches. -/
def searchField (key : List Char) (la : List Char → Bool) : List Char → Option (List Char)
  | [] => none
  | c :: cs =>
    match matchFieldAt key la (c :: cs) with
    | some g => some g
    | none => searchField key la cs

/-- The `improved_content` extraction regex of the sanitizer's last
resort (group 1 of `"improved_content"\s*:\s*"(.*?)"(?=\s*,)`). -/
def extract_improved_content (cs : List Char) : Option (List Char) :=
  searchField "\"improved_content\"".data lookaheadComma cs

/-- The `improvement_summary` extraction regex
(`"improvement_summary"\s*:\s*"(.*?)"`). -/
def extract_improvement_summary (cs : List Char) : Option (List Char) :=
  searchField "\"improvement_summary\"".data (fun _ => true) cs

/-- Python `str.replace` (left-to-right, non-overlapping) for a
non-empty pattern `p :: ps`; each step consumes at least one character,
so the fuel (length + 1 at the entry point) never runs out. -/
def pyListReplace (p : Char) (ps : List Char) (rep : List Char) :
    Nat → List Char → List Char
  | 0, cs => cs
  | _ + 1, [] => []
  | fuel + 1, c :: cs =>
    if (p :: ps).isPrefixOf (c :: cs) then
      rep ++ pyListReplace p ps rep fuel (cs.drop ps.length)
    else c :: pyListReplace p ps rep fuel cs

/-- `str.replace` on strings (all call sites here use non-empty
patterns; the empty-pattern case, which Python treats as inserting
between every character, is left as the identity). -/
def pyReplace (s pat rep : String) : String :=
  match pat.data with
  | [] => s
  | p :: ps => String.mk (pyListReplace p ps rep.data (s.data.length + 1) s.data)

/-- The source's `"`→`"` cleanup of the extracted fields
(services.py 127-128) — both characters are the plain ASCII quote, so
this replace is the identity it performs. -/
def pyReplaceQuoteNoop (s : String) : String := pyReplace s "\"" "\""

/-- `clean_json_response` (services.py 14-146): staged cleaning, two
parse attempts, then the last-resort regex extraction that
hand-assembles a two-key JSON object, falling back to the
reconstructed string. -/
def clean_json_response (content : String) : String :=
  if content = "" then content
  else
    let cleaned := standardClean content
    if (loads cleaned).isSome then cleaned
    else
      let reconstructed := reconstructedOf content
      if (loads reconstructed).isSome then reconstructed
      else
        match extract_improved_content reconstructed.data,
              extract_improvement_summary reconstructed.data with
        | some ic, some sm =>
            json_dumps_two (pyReplaceQuoteNoop (String.mk ic))
              (pyReplaceQuoteNoop (String.mk sm))
        | _, _ => reconstructed

/-! ## Improvement agent (`improve_post_content`, services.py 384-565)
and topic agent (`generate_topics`, services.py 162-240)

The provider call `self._make_request(messages)` is passed in as its
outcome: the text it returned, or the exception it raised. -/

/-- Outcome of the provider call made by the improvement agent. -/
inductive AgentCallResult where
  | ok (text : String)
  | raised (message : String)
deriving Repr, DecidableEq

/-- Python `pat in hay` substring test. -/
def listInfix (pat : List Char) : List Char → Bool
  | [] => pat.isEmpty
  | c :: rest => pat.isPrefixOf (c :: rest) || listInfix pat rest

/-- Python `pat in hay` on strings. -/
def strContains (hay pat : String) : Bool := listInfix pat.data hay.data

/-- Python `str.lower()` (ASCII part — every pattern matched against a
lowered string here is ASCII). -/
def pyLower (s : String) : String := String.mk (s.data.map Char.toLower)

/-- The error-message classification of `improve_post_content`'s
outer exception handler (services.py 544-560). -/
def classify_improvement_error (e : String) : String :=
  if strContains e "Invalid control character" then
    "AI response contained invalid control characters. This is usually a temporary API issue."
  else if strContains (pyLower e) "timeout" then
    "Request timed out. Please try again."
  else if strContains (pyLower e) "rate limit" then
    "API rate limit exceeded. Please wait a moment and try again."
  else if strContains (pyLower e) "api key" then
    "API authentication error. Please check configuration."
  else "Unexpected error: " ++ e

/-- `isinstance(parsed, dict) and "improved_content" in parsed`. -/
def objHasImprovedContent : Json → Bool
  | .obj ms => ms.any (fun m => m.1 == "improved_content")
  | _ => false

/-- Parse and validate: the parsed-with-required-key check the
improvement agent applies (a parse success without the key raises and
is caught exactly like a parse failure, services.py 465-471). -/
def parsedWithKey (content : String) : Option Json :=
  match loads content with
  | some parsed => if objHasImprovedContent parsed then some parsed else none
  | none => none

/-- Python `str.find(ch)`: first index or -1. -/
def pyFindChar (cs : List Char) (c : Char) : Int :=
  match cs.findIdx? (fun x => x = c) with
  | some i => i
  | none => -1

/-- Python `str.rfind(ch)`: last index or -1. -/
def pyRFindChar (cs : List Char) (c : Char) : Int :=
  match cs.reverse.findIdx? (fun x => x = c) with
  | some i => (cs.length - 1 - i : Int)
  | none => -1

/-- The embedded-JSON slice `content[start:end]` with
`start = content.find("\x7b")`, `end = content.rfind("\x7d") + 1`,
guarded by `start != -1 and end != 0` (services.py 479-483). -/
def improve_extract_braces (content : String) : Option String :=
  let start := pyFindChar content.data '\x7b'
  let stop := pyRFindChar content.data '\x7d' + 1
  if start ≠ -1 ∧ stop ≠ 0 then
    some (String.mk ((content.data.drop start.toNat).take (stop.toNat - start.toNat)))
  else none

/-- The final-failure summary (services.py 532): the source
interpolates `str(json_error)` into this message; the Python
exception's rendering is abstracted away. -/
def json_parse_failure_summary : String :=
  "JSON parsing failed. The AI response contained invalid characters or format."

/-- `improve_post_content` (services.py 384-565), given the current
content and the outcome of the provider call.  Returns the dict the
caller receives: the parsed object on success, or a two-key dict built
by one of the fallbacks. -/
def improve_post_content (current_content : String) (resp : AgentCallResult) : Json :=
  match resp with
  | .raised e =>
      .obj [("improved_content", .str current_content),
            ("improvement_summary", .str (classify_improvement_error e))]
  | .ok text =>
    if text = "" then
      .obj [("improved_content", .str current_content),
            ("improvement_summary", .str "No content received from AI service.")]
    else
      let content := clean_json_response text
      match parsedWithKey content with
      | some parsed => parsed
      | none =>
        match (improve_extract_braces content).bind
            (fun sub => parsedWithKey (clean_json_response sub)) with
        | some parsed => parsed
        | none =>
          match searchField "\"improved_content\"".data lookaheadCommaOrBrace
              content.data with
          | some g =>
              .obj [("improved_content",
                      .str (pyReplace (pyReplace (pyReplace (String.mk g)
                        "\\\"" "\"") "\\\\" "\\") "\\n" "\n")),
                    ("improvement_summary",
                      .str "Content extracted using fallback parsing due to JSON format issues.")]
          | none =>
              .obj [("improved_content", .str current_content),
                    ("improvement_summary", .str json_parse_failure_summary)]

/-- Outcome of the provider call made by the topic agent, separating a
raised `json.JSONDecodeError` (e.g. `requests.Response.json()` on a
non-JSON HTTP body in the Grok/Gemini adapters) from any other
exception, because the two hit different `except` clauses. -/
inductive TopicAgentCall where
  | ok (text : String)
  | jsonDecodeError (message : String)
  | otherError (message : String)
deriving Repr, DecidableEq

/-- The topic agent's empty fallback batch. -/
def topics_empty_result : Json := .obj [("topics", .arr [])]

/-- `AIServiceBase.generate_topics`'s response handling
(services.py 225-240).  `.error` models an exception escaping to the
caller: when `_make_request` itself raises a `json.JSONDecodeError`,
the `except json.JSONDecodeError` handler runs with `response_text`
unbound and its `response_text.find("\x7b")` raises a `NameError`. -/
def generate_topics_agent (resp : TopicAgentCall) : Except String Json :=
  match resp with
  | .ok response_text =>
    match loads response_text with
    | some j => .ok j
    | none =>
      let start := pyFindChar response_text.data '\x7b'
      let stop := pyRFindChar response_text.data '\x7d' + 1
      if start ≠ -1 ∧ stop ≠ 0 then
        match loads (String.mk ((response_text.data.drop start.toNat).take
            (stop.toNat - start.toNat))) with
        | some j => .ok j
        | none => .ok topics_empty_result
      else .ok topics_empty_result
  | .jsonDecodeError _ =>
      .error "NameError: name 'response_text' is not defined"
  | .otherError _ => .ok topics_empty_result

/-! ## Concrete sample records used by counterexamples and witnesses -/

/-- A post as `post_improve` leaves it right after enqueueing:
processing, with some generated content. -/
def samplePostProcessing : Post :=
  { id := 7, theme_id := 1, post_type := "simple", title := "Pods",
    content := "original body", promotional_post := "", topic := "Pod scheduling",
    seo_title := "Pods", seo_description := "about pods", status := "generated",
    generated_at := some 500, generation_prompt := "", ai_model_used := "gpt-4o-mini",
    cover_image_prompt := "", is_processing := true, processing_status := "processing",
    updated_at := 900 }

/-- An improvement-agent result whose content differs from the post's. -/
def sampleImprovement : ImprovementData :=
  { improved_content := some "a longer, improved body", improvement_summary := some "expanded" }

/-- A theme that has been stuck in processing for 6 minutes at `now = 1000`. -/
def staleTheme6min : Theme :=
  { id := 1, title := "Kubernetes", is_active := true, suggested_topics := none,
    topics_generated_at := none, is_processing := true,
    processing_status := "processing", updated_at := 640 }

/-- An idle theme (nothing processing). -/
def idleTheme : Theme :=
  { id := 2, title := "Django", is_active := true, suggested_topics := none,
    topics_generated_at := none, is_processing := false,
    processing_status := "idle", updated_at := 100 }

/-- The topic list a theme stores (empty when `suggested_topics` is unset). -/
def themeTopics (theme : Theme) : List Topic :=
  match theme.suggested_topics with
  | some st => st.topics
  | none => []

/-- A mangled response on which both parse attempts fail but the
last-resort field extraction succeeds. -/
def sampleMangledResponse : String :=
  "x \"improved_content\": \"A\", \"improvement_summary\": \"B\""

/-- A response on which every parse and extraction stage fails. -/
def sampleUnsalvageable : String := "no json here at all"

/-! # Theorems -/

/-! ### Round-trip of the hand-assembled two-key JSON object -/

theorem hexVal_hexDigitChar : ∀ n < 16, hexVal (hexDigitChar n) = some n := by decide

theorem parseStringBody_lit (key : List Char) (rest : List Char)
    (hk : ∀ c ∈ key, c ≠ '"' ∧ c ≠ '\\' ∧ 0x20 ≤ c.toNat) :
    parseStringBody (key ++ '"' :: rest) = some (key, rest) := by
  induction key with
  | nil => unfold parseStringBody; simp
  | cons c cs ih =>
    obtain ⟨h1, h2, h3⟩ := hk c (by simp)
    have ih2 := ih (fun x hx => hk x (by simp [hx]))
    unfold parseStringBody
    simp [h1, h2, h3, ih2]

theorem parseStringBody_escape (s rest : List Char) :
    parseStringBody (pyEscapeList s ++ '"' :: rest) = some (s, rest) := by
  induction s with
  | nil => simp [pyEscapeList]; unfold parseStringBody; simp
  | cons c cs ih =>
    rw [show pyEscapeList (c :: cs) = pyEscapeChar c ++ pyEscapeList cs from by
      simp [pyEscapeList]]
    rw [List.append_assoc]
    unfold pyEscapeChar
    split_ifs with h1 h2 h3 h4 h5 h6 h7 h8
    · subst h1; unfold parseStringBody; simp [escCharJson, ih]
    · subst h2; unfold parseStringBody; simp [escCharJson, ih]
    · subst h3; unfold parseStringBody; simp [escCharJson, ih]
    · subst h4; unfold parseStringBody; simp [escCharJson, ih]
    · subst h5; unfold parseStringBody; simp [escCharJson, ih]
    · subst h6; unfold parseStringBody; simp [escCharJson, ih]
    · subst h7; unfold parseStringBody; simp [escCharJson, ih]
    · have hhi := hexVal_hexDigitChar (c.toNat / 16) (by omega)
      have hlo := hexVal_hexDigitChar (c.toNat % 16) (by omega)
      have harith : c.toNat / 16 * 16 + c.toNat % 16 = c.toNat := by omega
      have h0 : hexVal '0' = some 0 := by decide
      unfold parseStringBody
      simp [h0, hhi, hlo, ih, harith, Char.ofNat_toNat]
    · have h3' : 0x20 ≤ c.toNat := by omega
      unfold parseStringBody
      simp [h1, h2, h3', ih]


theorem skipJsonWs_space (cs : List Char) : skipJsonWs (' ' :: cs) = skipJsonWs cs := rfl

theorem skipJsonWs_nonws (c : Char) (cs : List Char) (h : jsonWs c = false) :
    skipJsonWs (c :: cs) = c :: cs := by
  unfold skipJsonWs; simp [h]

theorem parseValue_string (fuel : Nat) (v rest2 : List Char) :
    parseValue (fuel + 1) (' ' :: '"' :: (pyEscapeList v ++ '"' :: rest2)) =
      some (.str (String.mk v), rest2) := by
  unfold parseValue
  rw [skipJsonWs_space, skipJsonWs_nonws '"' _ (by decide)]
  simp [parseStringBody_escape]

theorem parseValue_objFirstQuote (fuel : Nat) (cs : List Char) :
    parseValue (fuel + 1) ('\x7b' :: '"' :: cs) =
      (match parseMembers fuel ('"' :: cs) with
      | some (ms, r) => some (Json.obj ms, r)
      | none => none) := by
  unfold parseValue
  simp [skipJsonWs_nonws, jsonWs]

theorem parseMembers_field_more (fuel : Nat) (key v tail : List Char)
    (hk : ∀ x ∈ key, x ≠ '"' ∧ x ≠ '\\' ∧ 0x20 ≤ x.toNat) :
    parseMembers (fuel + 2) ('"' :: (key ++ '"' :: ':' :: ' ' :: '"' ::
        (pyEscapeList v ++ '"' :: ',' :: tail))) =
      (match parseMembers (fuel + 1) tail with
      | some (ms, r) => some ((String.mk key, Json.str (String.mk v)) :: ms, r)
      | none => none) := by
  have hlit := parseStringBody_lit key
    (':' :: ' ' :: '"' :: (pyEscapeList v ++ '"' :: ',' :: tail)) hk
  have hstr := parseValue_string fuel v (',' :: tail)
  suffices h : ∀ X, parseMembers (fuel + 1) tail = X →
      parseMembers ((fuel + 1) + 1) ('"' :: (key ++ '"' :: ':' :: ' ' :: '"' ::
        (pyEscapeList v ++ '"' :: ',' :: tail))) =
      (match X with
      | some (ms, r) => some ((String.mk key, Json.str (String.mk v)) :: ms, r)
      | none => none) by
    exact h (parseMembers (fuel + 1) tail) rfl
  intro X hX
  unfold parseMembers
  rw [skipJsonWs_nonws '"' _ (by decide)]
  simp [hlit, hstr, skipJsonWs_nonws, jsonWs]
  rw [hX]

theorem parseMembers_field_last (fuel : Nat) (key v rest2 : List Char)
    (hk : ∀ x ∈ key, x ≠ '"' ∧ x ≠ '\\' ∧ 0x20 ≤ x.toNat) :
    parseMembers (fuel + 2) ('"' :: (key ++ '"' :: ':' :: ' ' :: '"' ::
        (pyEscapeList v ++ '"' :: '\x7d' :: rest2))) =
      some ([(String.mk key, Json.str (String.mk v))], rest2) := by
  have hlit := parseStringBody_lit key
    (':' :: ' ' :: '"' :: (pyEscapeList v ++ '"' :: '\x7d' :: rest2)) hk
  have hstr := parseValue_string fuel v ('\x7d' :: rest2)
  rw [show fuel + 2 = (fuel + 1) + 1 from rfl]
  unfold parseMembers
  rw [skipJsonWs_nonws '"' _ (by decide)]
  simp [hlit, hstr, skipJsonWs_nonws, jsonWs]

theorem parseMembers_space (fuel : Nat) (cs : List Char) :
    parseMembers (fuel + 1) (' ' :: cs) = parseMembers (fuel + 1) cs := by
  unfold parseMembers
  rw [skipJsonWs_space]

theorem parseValue_dumpsPair (c s : List Char) (k : Nat) :
    parseValue (k + 5) (jsonDumpsPairList c s) =
      some (.obj [("improved_content", .str (String.mk c)),
                  ("improvement_summary", .str (String.mk s))], []) := by
  have hk1 : ∀ x ∈ "improved_content".data, x ≠ '"' ∧ x ≠ '\\' ∧ 0x20 ≤ x.toNat := by
    decide
  have hk2 : ∀ x ∈ "improvement_summary".data, x ≠ '"' ∧ x ≠ '\\' ∧ 0x20 ≤ x.toNat := by
    decide
  have hshape : jsonDumpsPairList c s =
      '\x7b' :: '"' :: ("improved_content".data ++ '"' :: ':' :: ' ' :: '"' ::
        (pyEscapeList c ++ '"' :: ',' :: ' ' :: '"' ::
          ("improvement_summary".data ++ '"' :: ':' :: ' ' :: '"' ::
            (pyEscapeList s ++ '"' :: '\x7d' :: [])))) := by
    unfold jsonDumpsPairList
    rw [show "\x7b\"improved_content\": \"".data =
        '\x7b' :: '"' :: ("improved_content".data ++ ['"', ':', ' ', '"']) from rfl]
    rw [show "\", \"improvement_summary\": \"".data =
        '"' :: ',' :: ' ' :: '"' :: ("improvement_summary".data ++ ['"', ':', ' ', '"']) from
        rfl]
    rw [show "\"\x7d".data = ['"', '\x7d'] from rfl]
    simp [List.append_assoc]
  rw [hshape]
  rw [show k + 5 = (k + 4) + 1 from rfl]
  rw [parseValue_objFirstQuote (k + 4)]
  rw [show k + 4 = (k + 2) + 2 from rfl]
  rw [parseMembers_field_more (k + 2) "improved_content".data c _ hk1]
  rw [show k + 2 + 1 = (k + 1 + 1) + 1 from rfl]
  rw [parseMembers_space]
  rw [show k + 1 + 1 + 1 = (k + 1) + 2 from rfl]
  rw [parseMembers_field_last (k + 1) "improvement_summary".data s [] hk2]
theorem loads_dumps_two (c s : String) :
    loads (json_dumps_two c s) =
      some (.obj [("improved_content", .str c), ("improvement_summary", .str s)]) := by
  unfold loads json_dumps_two
  have h4 : 4 ≤ (jsonDumpsPairList c.data s.data).length := by
    unfold jsonDumpsPairList
    simp only [List.length_append]
    rw [show ("\x7b\"improved_content\": \"".data).length = 22 from rfl]
    omega
  rw [show (String.mk (jsonDumpsPairList c.data s.data)).data =
      jsonDumpsPairList c.data s.data from rfl]
  rw [show (jsonDumpsPairList c.data s.data).length + 1 =
      ((jsonDumpsPairList c.data s.data).length - 4) + 5 from by omega]
  rw [parseValue_dumpsPair]
  simp [skipJsonWs]

/-- C3: one run of the topic-generation task that receives a non-empty
batch of `k` new topics leaves the theme with exactly `N + k` topics —
the new batch appended onto the existing list, never replacing it — an
updated `topics_generated_at`, `processing_status = "completed"`, and
`is_processing = false`. -/
theorem generate_topics_task_merges (theme : Theme) (td : TopicsData) (now : Int)
    (h : td.topics ≠ []) :
    themeTopics (generate_topics_task theme td now).1 = themeTopics theme ++ td.topics ∧
    (themeTopics (generate_topics_task theme td now).1).length =
      (themeTopics theme).length + td.topics.length ∧
    (generate_topics_task theme td now).1.topics_generated_at = some now ∧
    (generate_topics_task theme td now).1.processing_status = "completed" ∧
    (generate_topics_task theme td now).1.is_processing = false := by
  cases hst : theme.suggested_topics with
  | none =>
    unfold generate_topics_task existingTopicsOf themeTopics
    simp [hst, h]
  | some st =>
    unfold generate_topics_task existingTopicsOf themeTopics
    by_cases he : st.topics = []
    · simp [hst, h, he]
    · simp [hst, h, he]

/-- Witness for C3 at a concrete theme and a one-topic batch. -/
theorem generate_topics_task_merges_witness :
    ([⟨"t", "h", "tip", "s", "c"⟩] : List Topic) ≠ [] ∧
    themeTopics (generate_topics_task idleTheme ⟨[⟨"t", "h", "tip", "s", "c"⟩]⟩ 1000).1 =
      themeTopics idleTheme ++ [⟨"t", "h", "tip", "s", "c"⟩] :=
  ⟨by decide,
   (generate_topics_task_merges idleTheme ⟨[⟨"t", "h", "tip", "s", "c"⟩]⟩ 1000
     (by decide)).1⟩

/-- C4: when a post already exists for the (theme, post_type, topic)
triple, re-invoking the generate-post task returns a `"warning"` result
carrying the existing post's id, leaves the post table unchanged, and
never invokes the content agent. -/
theorem generate_post_task_duplicate (db : List Post) (theme : Theme)
    (topic post_type : String) (agent : String → String → String → ContentData)
    (next_id : Nat) (now : Int) (p : Post)
    (h : existingPostFor db theme.id post_type topic = some p) :
    (generate_post_content_task db theme topic post_type agent next_id now).1 = db ∧
    (generate_post_content_task db theme topic post_type agent next_id now).2.1.status =
      "warning" ∧
    (generate_post_content_task db theme topic post_type agent next_id now).2.1.post_id =
      some p.id ∧
    (generate_post_content_task db theme topic post_type agent next_id now).2.2 = 0 := by
  unfold generate_post_content_task
  rw [h]
  exact ⟨rfl, rfl, rfl, rfl⟩

/-- Witness for C4: a table already holding the (theme 2, simple,
"Pod scheduling") post. -/
theorem generate_post_task_duplicate_witness :
    existingPostFor [samplePostProcessing] 1 "simple" "Pod scheduling" =
      some samplePostProcessing ∧
    (generate_post_content_task [samplePostProcessing]
        { idleTheme with id := 1 } "Pod scheduling" "simple"
        (fun _ _ _ => ⟨none, none, none, none, none, none⟩) 99 1000).2.2 = 0 :=
  ⟨by decide,
   (generate_post_task_duplicate [samplePostProcessing] { idleTheme with id := 1 }
      "Pod scheduling" "simple" (fun _ _ _ => ⟨none, none, none, none, none, none⟩)
      99 1000 samplePostProcessing (by decide)).2.2.2⟩

/-- C5: when the improvement agent returns `improved_content` equal to
the post's current content, the task result status is `"error"`, the
post's `processing_status` becomes `"failed"`, and the content is left
unchanged. -/
theorem improve_task_no_op_is_error (post : Post) (impr : ImprovementData) (now : Int)
    (h : impr.improved_content = some post.content) :
    (improve_post_content_task post impr now).2.status = "error" ∧
    (improve_post_content_task post impr now).1.processing_status = "failed" ∧
    (improve_post_content_task post impr now).1.content = post.content := by
  unfold improve_post_content_task
  rw [h]
  by_cases hc : post.content = ""
  · simp [pyTruthy, hc, mkResult]
  · simp [pyTruthy, hc, mkResult]

/-- Witness for C5: the agent echoes the sample post's body unchanged. -/
theorem improve_task_no_op_is_error_witness :
    ({ improved_content := some samplePostProcessing.content,
       improvement_summary := some "echo" } : ImprovementData).improved_content =
      some samplePostProcessing.content ∧
    (improve_post_content_task samplePostProcessing
        { improved_content := some samplePostProcessing.content,
          improvement_summary := some "echo" } 1000).2.status = "error" :=
  ⟨rfl,
   (improve_task_no_op_is_error samplePostProcessing
      { improved_content := some samplePostProcessing.content,
        improvement_summary := some "echo" } 1000 rfl).1⟩

/-- C2 (code bug): the improvement task body never writes
`is_processing`, so a post enqueued by `post_improve`
(`is_processing = true`) that is successfully improved ends with
`is_processing = true` while `processing_status = "completed"`,
violating the spec's invariant that `is_processing == true` implies
`processing_status == "processing"`. -/
theorem improve_task_breaks_processing_invariant :
    (improve_post_content_task samplePostProcessing sampleImprovement 1000).1.is_processing =
      true ∧
    (improve_post_content_task samplePostProcessing sampleImprovement 1000).1.processing_status =
      "completed" ∧
    ¬ procInvariant
        (improve_post_content_task samplePostProcessing sampleImprovement 1000).1.is_processing
        (improve_post_content_task samplePostProcessing sampleImprovement 1000).1.processing_status := by
  refine ⟨by decide, by decide, fun hinv => ?_⟩
  have h1 : (improve_post_content_task samplePostProcessing sampleImprovement
      1000).1.is_processing = true := by decide
  have h2 := hinv h1
  have h3 : (improve_post_content_task samplePostProcessing sampleImprovement
      1000).1.processing_status = "completed" := by decide
  rw [h3] at h2
  simp at h2

/-- C6 (counterexample): run with its argparse default, the batch
reaper's staleness window is 30 minutes, not 5 — a theme stuck for 6
minutes (strictly older than `now - 5 min`, so the claim as stated
requires it to be flipped to timeout) is left completely untouched. -/
theorem cleanup_default_leaves_6min_stale_theme :
    (cleanup_stuck_tasks_default [staleTheme6min] [] 1000).1 = [staleTheme6min] ∧
    staleTheme6min.is_processing = true ∧
    staleTheme6min.updated_at < 1000 - 5 * 60 ∧
    staleTheme6min.processing_status ≠ "timeout" := by
  refine ⟨by decide, by decide, by decide, by decide⟩

/-- C6 (amended): for every staleness window `m`, a non-dry-run batch
sweep flips exactly the records with `is_processing = true` and
`updated_at` strictly older than `now - m` minutes to
`is_processing = false`, `processing_status = "timeout"` (all other
fields kept), and leaves every other record — in particular any record
whose timestamp is at or after `now - m` minutes — unchanged; the
batch command's default window is 30 minutes, and the passive
status-check heal uses a fixed 5-minute window with the same flip. -/
theorem reaper_sweep_spec (themes : List Theme) (posts : List Post) (m now : Int)
    (theme : Theme) (post : Post) :
    (cleanup_stuck_tasks themes posts m false now).1 =
      themes.map (fun t =>
        if t.is_processing = true ∧ t.updated_at < now - m * 60 then
          { t with is_processing := false, processing_status := "timeout" }
        else t) ∧
    (cleanup_stuck_tasks themes posts m false now).2 =
      posts.map (fun p =>
        if p.is_processing = true ∧ p.updated_at < now - m * 60 then
          { p with is_processing := false, processing_status := "timeout" }
        else p) ∧
    cleanup_default_older_than = 30 ∧
    check_theme_status_heal theme now =
      (if theme.is_processing = true ∧ theme.updated_at < now - 5 * 60 then
        { theme with is_processing := false, processing_status := "timeout",
                     updated_at := now }
      else theme) ∧
    check_post_status_heal post now =
      (if post.is_processing = true ∧ post.updated_at < now - 5 * 60 then
        { post with is_processing := false, processing_status := "timeout",
                    updated_at := now }
      else post) := by
  refine ⟨?_, ?_, rfl, ?_, ?_⟩
  · unfold cleanup_stuck_tasks
    simp only [if_neg (Bool.false_ne_true)]
    apply List.map_congr_left
    intro t _
    unfold isStuckTheme
    by_cases h1 : t.is_processing = true <;> by_cases h2 : t.updated_at < now - m * 60 <;>
      simp [h1, h2]
  · unfold cleanup_stuck_tasks
    simp only [if_neg (Bool.false_ne_true)]
    apply List.map_congr_left
    intro p _
    unfold isStuckPost
    by_cases h1 : p.is_processing = true <;> by_cases h2 : p.updated_at < now - m * 60 <;>
      simp [h1, h2]
  · unfold check_theme_status_heal
    by_cases h1 : theme.is_processing = true <;>
      by_cases h2 : theme.updated_at < now - 5 * 60 <;> simp [h1, h2]
  · unfold check_post_status_heal
    by_cases h1 : post.is_processing = true <;>
      by_cases h2 : post.updated_at < now - 5 * 60 <;> simp [h1, h2]

/-- C9 (counterexample): the post-generation enqueue writes no
processing state — `generate_post_from_topic` hands the task to the
queue (`true`) while the theme record is returned exactly as it was,
still not processing, so a status check right after this enqueue does
not observe `"processing"`. -/
theorem generate_post_enqueue_writes_nothing :
    generate_post_from_topic_view idleTheme (some "Pod scheduling") "simple" =
      (idleTheme, true) ∧
    idleTheme.is_processing = false ∧
    idleTheme.processing_status ≠ "processing" := by
  refine ⟨by decide, by decide, by decide⟩

/-- C9 (amended): the topic-generation, improvement, and image-prompt
enqueues each set `is_processing = true` and
`processing_status = "processing"` on the record and persist it before
handing the task to the queue (the image-prompt enqueue only for
articles, which it accepts); the post-generation enqueue hands the task
off without writing any processing state. -/
theorem enqueue_marks_processing (theme : Theme) (post : Post) (topic : String)
    (post_type : String) (now : Int) (harticle : post.post_type = "article") :
    (generate_topics_view theme now).1.is_processing = true ∧
    (generate_topics_view theme now).1.processing_status = "processing" ∧
    (generate_topics_view theme now).2 = true ∧
    (post_improve_view post now).1.is_processing = true ∧
    (post_improve_view post now).1.processing_status = "processing" ∧
    (post_improve_view post now).2 = true ∧
    (regenerate_image_prompt_view post now).1.is_processing = true ∧
    (regenerate_image_prompt_view post now).1.processing_status = "processing" ∧
    (regenerate_image_prompt_view post now).2 = true ∧
    (generate_post_from_topic_view theme (some topic) post_type).1 = theme := by
  unfold generate_topics_view post_improve_view regenerate_image_prompt_view
    generate_post_from_topic_view
  simp [harticle, pyTruthy]
  by_cases h : topic = "" <;> simp [h]

/-- Witness for C9 (amended) at concrete records. -/
theorem enqueue_marks_processing_witness :
    ({ samplePostProcessing with post_type := "article" } : Post).post_type = "article" ∧
    (generate_topics_view idleTheme 1000).1.is_processing = true :=
  ⟨rfl,
   (enqueue_marks_processing idleTheme { samplePostProcessing with post_type := "article" }
      "Pod scheduling" "simple" 1000 rfl).1⟩

/-- C10: whichever provider-backed agent produced the content, the post
created by a successful generate-post run records `ai_model_used =
"gpt-4o"` for articles and `"gpt-4o-mini"` otherwise — the label is a
hardcoded pair independent of the agent. -/
theorem generate_post_task_model_label (db : List Post) (theme : Theme)
    (topic post_type : String) (agent : String → String → String → ContentData)
    (next_id : Nat) (now : Int)
    (h : existingPostFor db theme.id post_type topic = none) :
    ((generate_post_content_task db theme topic post_type agent next_id now).1.getLast?).map
        (fun p => p.ai_model_used) =
      some (if post_type = "article" then "gpt-4o" else "gpt-4o-mini") := by
  unfold generate_post_content_task
  rw [h]
  simp

/-- Witness for C10: a fresh table, two agents that disagree, same label. -/
theorem generate_post_task_model_label_witness :
    existingPostFor [] 2 "article" "Pods" = none ∧
    ((generate_post_content_task [] idleTheme "Pods" "article"
        (fun _ _ _ => ⟨some "T", some "C", none, none, none, none⟩) 1 1000).1.getLast?).map
        (fun p => p.ai_model_used) = some "gpt-4o" :=
  ⟨rfl, by
    have := generate_post_task_model_label [] idleTheme "Pods" "article"
      (fun _ _ _ => ⟨some "T", some "C", none, none, none, none⟩) 1 1000 rfl
    simpa using this⟩

/-- C1: `clean_json_response` is total (never raises); whenever both
parse attempts fail and the last-resort regex extraction of the two
fields succeeds, the returned string is exactly the serialized two-key
object and parses as valid JSON containing exactly `improved_content`
and `improvement_summary`; when extraction fails, the best-effort
reconstructed string is returned unchanged. -/
theorem clean_json_response_spec (raw : String) (ic sm : List Char)
    (h1 : (loads (standardClean raw)).isSome = false)
    (h2 : (loads (reconstructedOf raw)).isSome = false) :
    (extract_improved_content (reconstructedOf raw).data = some ic →
     extract_improvement_summary (reconstructedOf raw).data = some sm →
     clean_json_response raw =
       json_dumps_two (pyReplaceQuoteNoop (String.mk ic))
         (pyReplaceQuoteNoop (String.mk sm)) ∧
     loads (clean_json_response raw) =
       some (.obj [("improved_content", .str (pyReplaceQuoteNoop (String.mk ic))),
                   ("improvement_summary", .str (pyReplaceQuoteNoop (String.mk sm)))])) ∧
    ((extract_improved_content (reconstructedOf raw).data = none ∨
      extract_improvement_summary (reconstructedOf raw).data = none) →
     clean_json_response raw = reconstructedOf raw) := by
  by_cases hraw : raw = ""
  · subst hraw
    constructor
    · intro he1 _he2
      rw [show extract_improved_content (reconstructedOf "").data = none from rfl] at he1
      exact Option.noConfusion he1
    · intro _
      rfl
  · have hcl : clean_json_response raw =
        (match extract_improved_content (reconstructedOf raw).data,
               extract_improvement_summary (reconstructedOf raw).data with
         | some a, some b =>
             json_dumps_two (pyReplaceQuoteNoop (String.mk a))
               (pyReplaceQuoteNoop (String.mk b))
         | _, _ => reconstructedOf raw) := by
      unfold clean_json_response
      simp [hraw, h1, h2]
    constructor
    · intro he1 he2
      rw [hcl, he1, he2]
      exact ⟨rfl, loads_dumps_two _ _⟩
    · intro hnone
      rcases hx : extract_improved_content (reconstructedOf raw).data with _ | g
      · rw [hcl, hx]
      · rcases hnone with hn | hn
        · rw [hx] at hn
          exact Option.noConfusion hn
        · rw [hcl, hx, hn]

/-- Witness for C1 at a concrete mangled response. -/
theorem clean_json_response_spec_witness :
    (loads (standardClean sampleMangledResponse)).isSome = false ∧
    extract_improved_content (reconstructedOf sampleMangledResponse).data = some ['A'] ∧
    clean_json_response sampleMangledResponse =
      json_dumps_two (pyReplaceQuoteNoop (String.mk ['A']))
        (pyReplaceQuoteNoop (String.mk ['B'])) :=
  ⟨by decide, by decide,
   ((clean_json_response_spec sampleMangledResponse ['A'] ['B'] (by decide) (by decide)).1
      (by decide) (by decide)).1⟩

/-- C7: whenever the improvement agent's JSON parse and every
extraction fallback fail — provider exception, empty response, or
unsalvageable text — `improve_post_content` returns the original
content unchanged (never fabricating), paired with a diagnostic
summary; for provider exceptions the summary is selected by
pattern-matching the error text, distinguishing control-character,
timeout, rate-limit and API-key/auth errors. -/
theorem improve_post_content_failure_spec (cc e text : String) :
    improve_post_content cc (.raised e) =
      .obj [("improved_content", .str cc),
            ("improvement_summary", .str (classify_improvement_error e))] ∧
    (strContains e "Invalid control character" = true →
      classify_improvement_error e =
        "AI response contained invalid control characters. This is usually a temporary API issue.") ∧
    (strContains e "Invalid control character" = false →
     strContains (pyLower e) "timeout" = true →
      classify_improvement_error e = "Request timed out. Please try again.") ∧
    (strContains e "Invalid control character" = false →
     strContains (pyLower e) "timeout" = false →
     strContains (pyLower e) "rate limit" = true →
      classify_improvement_error e =
        "API rate limit exceeded. Please wait a moment and try again.") ∧
    (strContains e "Invalid control character" = false →
     strContains (pyLower e) "timeout" = false →
     strContains (pyLower e) "rate limit" = false →
     strContains (pyLower e) "api key" = true →
      classify_improvement_error e = "API authentication error. Please check configuration.") ∧
    (strContains e "Invalid control character" = false →
     strContains (pyLower e) "timeout" = false →
     strContains (pyLower e) "rate limit" = false →
     strContains (pyLower e) "api key" = false →
      classify_improvement_error e = "Unexpected error: " ++ e) ∧
    improve_post_content cc (.ok "") =
      .obj [("improved_content", .str cc),
            ("improvement_summary", .str "No content received from AI service.")] ∧
    (text ≠ "" →
     (parsedWithKey (clean_json_response text)).isSome = false →
     ((improve_extract_braces (clean_json_response text)).bind
        (fun sub => parsedWithKey (clean_json_response sub))).isSome = false →
     searchField "\"improved_content\"".data lookaheadCommaOrBrace
        (clean_json_response text).data = none →
     improve_post_content cc (.ok text) =
       .obj [("improved_content", .str cc),
             ("improvement_summary", .str json_parse_failure_summary)]) := by
  refine ⟨rfl, ?_, ?_, ?_, ?_, ?_, rfl, ?_⟩
  · intro ha
    unfold classify_improvement_error
    simp [ha]
  · intro ha hb
    unfold classify_improvement_error
    simp [ha, hb]
  · intro ha hb hc
    unfold classify_improvement_error
    simp [ha, hb, hc]
  · intro ha hb hc hd
    unfold classify_improvement_error
    simp [ha, hb, hc, hd]
  · intro ha hb hc hd
    unfold classify_improvement_error
    simp [ha, hb, hc, hd]
  · intro ht hp hb hs
    have hp' : parsedWithKey (clean_json_response text) = none := by
      cases hpk : parsedWithKey (clean_json_response text)
      · rfl
      · rw [hpk] at hp
        simp at hp
    have hb' : (improve_extract_braces (clean_json_response text)).bind
        (fun sub => parsedWithKey (clean_json_response sub)) = none := by
      cases hbk : (improve_extract_braces (clean_json_response text)).bind
          (fun sub => parsedWithKey (clean_json_response sub))
      · rfl
      · rw [hbk] at hb
        simp at hb
    unfold improve_post_content
    simp [ht, hp', hb', hs]

/-- Witness for C7: an unsalvageable response preserves the original
content, and a timeout error text is classified as a timeout. -/
theorem improve_post_content_failure_spec_witness :
    sampleUnsalvageable ≠ "" ∧
    improve_post_content "orig" (.ok sampleUnsalvageable) =
      .obj [("improved_content", .str "orig"),
            ("improvement_summary", .str json_parse_failure_summary)] ∧
    classify_improvement_error "Request timeout after 120s" =
      "Request timed out. Please try again." :=
  ⟨by decide,
   (improve_post_content_failure_spec "orig" "x" sampleUnsalvageable).2.2.2.2.2.2.2
     (by decide) (by decide) (by decide) (by decide),
   (improve_post_content_failure_spec "orig" "Request timeout after 120s" "t").2.2.1
     (by decide) (by decide)⟩

/-- C8 (code bug): when `_make_request` itself raises a
`json.JSONDecodeError`, the topic agent's `except json.JSONDecodeError`
handler dereferences the unbound `response_text` and a `NameError`
escapes to the caller — contradicting "never raises".  For a returned
text the claimed behavior holds: unparseable text falls back to the
empty batch, the first-brace/last-brace substring is retried, and any
other exception yields the empty batch. -/
theorem generate_topics_agent_decode_error_raises :
    generate_topics_agent (.jsonDecodeError "Expecting value: line 1 column 1 (char 0)") =
      .error "NameError: name 'response_text' is not defined" ∧
    generate_topics_agent (.otherError "Connection refused") = .ok topics_empty_result ∧
    generate_topics_agent (.ok "I cannot help with that") = .ok topics_empty_result ∧
    generate_topics_agent (.ok "Sure! \x7b\"topics\": []\x7d") =
      .ok (.obj [("topics", .arr [])]) := by
  refine ⟨rfl, rfl, ?_, ?_⟩
  · rfl
  · rfl

end PostPilot
